import Mathlib

/-!
# Verification of `src/utils/calculations.js` (NBA player projection engine)

Shallow embedding of the projection-formula engine.  JavaScript numbers are
modelled by `JSNum`: either an exact rational (idealising finite IEEE-754
doubles as exact arithmetic), `NaN`, or one of the two infinities.  The
arithmetic operations follow the ECMAScript semantics for `NaN` and infinity
propagation.  Arbitrary JavaScript values (as they appear in duck-typed input
records) are modelled by `JSVal`: either a number, or `nonNum`, which stands
for any value whose `typeof` is not `"number"` (for instance a missing field,
i.e. `undefined`).
-/

set_option maxRecDepth 10000

/-- A JavaScript number: an exact rational (idealised finite double),
`NaN`, `+Infinity` or `-Infinity`. -/
inductive JSNum where
  | num (q : ℚ)
  | nan
  | inf
  | negInf
deriving DecidableEq, Repr

/-- Embed a rational as a (finite) JavaScript number. -/
def jq (q : ℚ) : JSNum := JSNum.num q

/-- JS unary minus. -/
def JSNum.neg : JSNum → JSNum
  | .num q => .num (-q)
  | .nan => .nan
  | .inf => .negInf
  | .negInf => .inf

/-- JS addition: `NaN` is absorbing, `Infinity + (-Infinity) = NaN`,
infinities otherwise absorb finite values. -/
def JSNum.add : JSNum → JSNum → JSNum
  | .nan, _ => .nan
  | _, .nan => .nan
  | .inf, .negInf => .nan
  | .negInf, .inf => .nan
  | .inf, _ => .inf
  | _, .inf => .inf
  | .negInf, _ => .negInf
  | _, .negInf => .negInf
  | .num x, .num y => .num (x + y)

/-- JS subtraction: `a - b = a + (-b)`. -/
def JSNum.sub (a b : JSNum) : JSNum := a.add b.neg

/-- JS multiplication: `NaN` absorbing, `Infinity * 0 = NaN`, signed
infinity propagation otherwise. -/
def JSNum.mul : JSNum → JSNum → JSNum
  | .nan, _ => .nan
  | _, .nan => .nan
  | .num x, .num y => .num (x * y)
  | .inf, .inf => .inf
  | .inf, .negInf => .negInf
  | .negInf, .inf => .negInf
  | .negInf, .negInf => .inf
  | .inf, .num y => if y = 0 then .nan else if 0 < y then .inf else .negInf
  | .num x, .inf => if x = 0 then .nan else if 0 < x then .inf else .negInf
  | .negInf, .num y => if y = 0 then .nan else if 0 < y then .negInf else .inf
  | .num x, .negInf => if x = 0 then .nan else if 0 < x then .negInf else .inf

/-- JS division (signed zeroes are not modelled; a zero divisor counts as
`+0`): `NaN` absorbing, `Infinity / Infinity = NaN`, finite over zero gives
a signed infinity (or `NaN` for `0/0`). -/
def JSNum.div : JSNum → JSNum → JSNum
  | .nan, _ => .nan
  | _, .nan => .nan
  | .inf, .inf => .nan
  | .inf, .negInf => .nan
  | .negInf, .inf => .nan
  | .negInf, .negInf => .nan
  | .inf, .num y => if y < 0 then .negInf else .inf
  | .negInf, .num y => if y < 0 then .inf else .negInf
  | .num _, .inf => .num 0
  | .num _, .negInf => .num 0
  | .num x, .num y =>
      if y = 0 then (if x = 0 then .nan else if 0 < x then .inf else .negInf)
      else .num (x / y)

instance : Neg JSNum := ⟨JSNum.neg⟩
instance : Add JSNum := ⟨JSNum.add⟩
instance : Sub JSNum := ⟨JSNum.sub⟩
instance : Mul JSNum := ⟨JSNum.mul⟩
instance : Div JSNum := ⟨JSNum.div⟩

/-- JS `<` comparison: any comparison involving `NaN` is false. -/
def jsLt : JSNum → JSNum → Bool
  | .nan, _ => false
  | _, .nan => false
  | .inf, _ => false
  | .negInf, .negInf => false
  | .negInf, _ => true
  | .num _, .inf => true
  | .num _, .negInf => false
  | .num a, .num b => a < b

/-- JS `>=` comparison: any comparison involving `NaN` is false. -/
def jsGe : JSNum → JSNum → Bool
  | .nan, _ => false
  | _, .nan => false
  | .inf, _ => true
  | .negInf, .negInf => true
  | .negInf, _ => false
  | .num _, .inf => false
  | .num _, .negInf => true
  | .num a, .num b => b ≤ a

/-- JS `isFinite` on a number. -/
def jsIsFinite : JSNum → Bool
  | .num _ => true
  | _ => false

/-- JS `isNaN` on a number. -/
def jsIsNaN : JSNum → Bool
  | .nan => true
  | _ => false

/-- An arbitrary JavaScript value as far as this code can observe it:
either a number, or `nonNum`, a value whose `typeof` is not `"number"`
(e.g. the `undefined` of a missing field). -/
inductive JSVal where
  | num (x : JSNum)
  | nonNum
deriving DecidableEq, Repr

/-- `typeof v === 'number'`. -/
def jsvIsNumber : JSVal → Bool
  | .num _ => true
  | .nonNum => false

/-- The numeric content of a value reaching an arithmetic position.  For a
`nonNum` this is `NaN` (faithful for `undefined`, the only non-number that
the validated code paths could let through). -/
def JSVal.toNum : JSVal → JSNum
  | .num x => x
  | .nonNum => .nan

/-- Whitespace accepted (and skipped) by `parseFloat`. -/
def isWhite (c : Char) : Bool :=
  c = ' ' || c = '\t' || c = '\n' || c = '\r' || c = '\x0b' || c = '\x0c'

/-- Does the first character list start with the second one? -/
def charsStartWith : List Char → List Char → Bool
  | _, [] => true
  | [], _ :: _ => false
  | a :: as, b :: bs => (a = b) && charsStartWith as bs

/-- Does the first character list contain the second as a contiguous run? -/
def charsContain : List Char → List Char → Bool
  | [], sub => sub.isEmpty
  | x :: xs, sub => charsStartWith (x :: xs) sub || charsContain xs sub

/-- Substring test on strings (used to state what an error message
"identifies"). -/
def strContains (s sub : String) : Bool := charsContain s.data sub.data

/-- Value of a digit run, most significant first. -/
def digitsToNat (ds : List Char) : ℕ :=
  ds.foldl (fun acc c => 10 * acc + (c.toNat - 48)) 0

/-- The exponent contributed by an `e`/`E` suffix, `0` when the suffix is
absent or malformed (in which case `parseFloat` stops before it). -/
def expVal (cs : List Char) : ℤ :=
  match cs with
  | c :: r =>
    if c = 'e' || c = 'E' then
      match r with
      | '+' :: r2 =>
          let ds := r2.takeWhile Char.isDigit
          if ds.isEmpty then 0 else (digitsToNat ds : ℤ)
      | '-' :: r2 =>
          let ds := r2.takeWhile Char.isDigit
          if ds.isEmpty then 0 else -(digitsToNat ds : ℤ)
      | r2 =>
          let ds := r2.takeWhile Char.isDigit
          if ds.isEmpty then 0 else (digitsToNat ds : ℤ)
    else 0
  | [] => 0

/-- `StrUnsignedDecimalLiteral` of `parseFloat`: the literal `Infinity`, or
`digits [. digits] [exponent]` with at least one digit; anything else is
`NaN`.  Only the longest valid leading run is consumed. -/
def parseUnsignedFloat (cs : List Char) : JSNum :=
  if charsStartWith cs ("Infinity".data) then JSNum.inf
  else
    let intDs := cs.takeWhile Char.isDigit
    let rest1 := cs.drop intDs.length
    let fracDs :=
      match rest1 with
      | '.' :: r => r.takeWhile Char.isDigit
      | _ => []
    let rest2 :=
      match rest1 with
      | '.' :: r => r.drop fracDs.length
      | _ => rest1
    if intDs.isEmpty && fracDs.isEmpty then JSNum.nan
    else
      let mant : ℚ := (digitsToNat intDs : ℚ) + (digitsToNat fracDs : ℚ) / ((10 : ℚ) ^ fracDs.length)
      JSNum.num (mant * (10 : ℚ) ^ (expVal rest2))

/-- Model of JavaScript `parseFloat` on a string: skip leading whitespace,
read an optional sign, then the longest unsigned decimal (or `Infinity`)
literal; `NaN` when no such leading run exists. -/
def jsParseFloat (s : String) : JSNum :=
  match s.data.dropWhile isWhite with
  | '-' :: rest => JSNum.neg (parseUnsignedFloat rest)
  | '+' :: rest => parseUnsignedFloat rest
  | cs => parseUnsignedFloat cs

/-- Player statistical record as consumed by `calculateTotalProjectedPoints`
(fields of `nba_player_stats_2024_25.json`); each field is an arbitrary
JavaScript value until validated. -/
structure PlayerData where
  FGA_36 : JSVal
  FTA_36 : JSVal
  two_point_percentage : JSVal
  three_point_percentage : JSVal
  free_throw_percentage : JSVal
  three_point_attempt_rate : JSVal
deriving DecidableEq, Repr

/-- Raw game parameters straight from the UI: strings. -/
structure RawGameParams where
  projectedMinutes : String
  usageAdjustment : String
deriving DecidableEq, Repr

/-- Pre-computed adjustment factors, duck-typed until validated. -/
structure Adjustments where
  paceAdjustment : JSVal
  dvpFgaFactor : JSVal
  dvpFtaFactor : JSVal
deriving DecidableEq, Repr

/-- The `breakdown` part of the result object. -/
structure ProjectionBreakdown where
  twoPointers : JSNum
  threePointers : JSNum
  freeThrows : JSNum
  projectedFGA : JSNum
  projectedFTA : JSNum
  paceAdjustment : JSNum
deriving DecidableEq, Repr

/-- The `attempts` part of the result object. -/
structure ProjectionAttempts where
  twoPointAttempts : JSNum
  threePointAttempts : JSNum
  freeThrowAttempts : JSNum
deriving DecidableEq, Repr

/-- The result object of `calculateTotalProjectedPoints`. -/
structure ProjectionResult where
  projectedPoints : JSNum
  breakdown : ProjectionBreakdown
  attempts : ProjectionAttempts
deriving DecidableEq, Repr

/-- `calculatePaceAdjustment` (src/utils/calculations.js:14-23): returns
`opponentPace / leagueAvgPace`, falling back to `1.0` whenever either input
fails the `typeof`/`isFinite` guard or `leagueAvgPace` is zero.  When the
guard passes both values are finite numbers, so the result is an exact
rational. -/
def calculatePaceAdjustment (opponentPace leagueAvgPace : JSVal) : ℚ :=
  match opponentPace, leagueAvgPace with
  | .num (.num x), .num (.num y) => if y = 0 then 1 else x / y
  | _, _ => 1

/-- `calculateProjectedFGA` (src/utils/calculations.js:34-37). -/
def calculateProjectedFGA (fga36 projectedMinutes usageAdjustment dvpFactor paceAdjustment : JSNum) : JSNum :=
  fga36 * (projectedMinutes / jq 36) * usageAdjustment * dvpFactor * paceAdjustment

/-- `calculateProjectedFTA` (src/utils/calculations.js:48-51). -/
def calculateProjectedFTA (fta36 projectedMinutes usageAdjustment dvpFactor paceAdjustment : JSNum) : JSNum :=
  fta36 * (projectedMinutes / jq 36) * usageAdjustment * dvpFactor * paceAdjustment

/-- `calculateTwoPointPoints` (src/utils/calculations.js:60-63). -/
def calculateTwoPointPoints (projectedFGA threePointAttemptRate twoPointPercentage : JSNum) : JSNum :=
  let twoPointAttempts := projectedFGA * (jq 1 - threePointAttemptRate)
  twoPointAttempts * twoPointPercentage * jq 2

/-- `calculateThreePointPoints` (src/utils/calculations.js:72-75). -/
def calculateThreePointPoints (projectedFGA threePointAttemptRate threePointPercentage : JSNum) : JSNum :=
  let threePointAttempts := projectedFGA * threePointAttemptRate
  threePointAttempts * threePointPercentage * jq 3

/-- `calculateFreeThrowPoints` (src/utils/calculations.js:83-85). -/
def calculateFreeThrowPoints (projectedFTA freeThrowPercentage : JSNum) : JSNum :=
  projectedFTA * freeThrowPercentage

/-- `validateAndParseNumber` (src/utils/calculations.js:95-111), specialised
to string inputs (the raw UI game parameters): `parseFloat`, then the
`isNaN` / `isFinite` / `<= 0` (unless `allowZero`) / `< 0` checks, each
failure throwing the corresponding message. -/
def validateAndParseNumber (value fieldName : String) (allowZero : Bool := false) : Except String ℚ :=
  match jsParseFloat value with
  | .nan =>
      .error (fieldName ++ " is not a valid number. Received: \"" ++ value ++ "\"")
  | .inf =>
      .error (fieldName ++ " is infinite or too large/small. Received: \"" ++ value ++ "\"")
  | .negInf =>
      .error (fieldName ++ " is infinite or too large/small. Received: \"" ++ value ++ "\"")
  | .num parsedValue =>
      if !allowZero && parsedValue ≤ 0 then
        .error (fieldName ++ " must be greater than 0. Received: \"" ++ value ++ "\"")
      else if parsedValue < 0 then
        .error (fieldName ++ " cannot be negative. Received: \"" ++ value ++ "\"")
      else .ok parsedValue

/-- `validatePlayerData` (src/utils/calculations.js:238-252): each of the six
required fields must be of number type, not `NaN`, and `>= 0`.  (`Infinity`
passes all three checks.) -/
def validatePlayerData (playerData : PlayerData) : Bool :=
  [playerData.FGA_36, playerData.FTA_36, playerData.two_point_percentage,
   playerData.three_point_percentage, playerData.free_throw_percentage,
   playerData.three_point_attempt_rate].all fun value =>
    jsvIsNumber value && !(jsIsNaN value.toNum) && jsGe value.toNum (jq 0)

/-- Steps 4-5 of `calculateTotalProjectedPoints`
(src/utils/calculations.js:173-224): the arithmetic pipeline on the
validated values and the rounded result object.  `jsRound d` models
`parseFloat(x.toFixed(d))` on the idealised numbers. -/
def jsRound (d : ℕ) : JSNum → JSNum
  | .num q => .num ((⌊q * (10 : ℚ) ^ d + 1/2⌋ : ℤ) / (10 : ℚ) ^ d)
  | .nan => .nan
  | .inf => .inf
  | .negInf => .negInf

/-- The result object built by steps 4-5 of `calculateTotalProjectedPoints`
(src/utils/calculations.js:173-224) from the already validated and parsed
inputs. -/
def mkProjectionResult (playerData : PlayerData)
    (projectedMinutes usageAdjustment paceAdjustment dvpFgaFactor dvpFtaFactor : ℚ) :
    ProjectionResult :=
  let projectedFGA := calculateProjectedFGA playerData.FGA_36.toNum
    (jq projectedMinutes) (jq usageAdjustment) (jq dvpFgaFactor) (jq paceAdjustment)
  let projectedFTA := calculateProjectedFTA playerData.FTA_36.toNum
    (jq projectedMinutes) (jq usageAdjustment) (jq dvpFtaFactor) (jq paceAdjustment)
  let twoPointPoints := calculateTwoPointPoints projectedFGA
    playerData.three_point_attempt_rate.toNum playerData.two_point_percentage.toNum
  let threePointPoints := calculateThreePointPoints projectedFGA
    playerData.three_point_attempt_rate.toNum playerData.three_point_percentage.toNum
  let freeThrowPoints := calculateFreeThrowPoints projectedFTA
    playerData.free_throw_percentage.toNum
  let totalProjectedPoints := twoPointPoints + threePointPoints + freeThrowPoints
  { projectedPoints := jsRound 1 totalProjectedPoints
    breakdown := {
      twoPointers := jsRound 1 twoPointPoints
      threePointers := jsRound 1 threePointPoints
      freeThrows := jsRound 1 freeThrowPoints
      projectedFGA := jsRound 1 projectedFGA
      projectedFTA := jsRound 1 projectedFTA
      paceAdjustment := jsRound 2 (jq paceAdjustment) }
    attempts := {
      twoPointAttempts := jsRound 1 (projectedFGA * (jq 1 - playerData.three_point_attempt_rate.toNum))
      threePointAttempts := jsRound 1 (projectedFGA * playerData.three_point_attempt_rate.toNum)
      freeThrowAttempts := jsRound 1 projectedFTA } }

/-- Step 3 of `calculateTotalProjectedPoints`
(src/utils/calculations.js:162-170): the adjustment factors must be of
number type, finite and strictly positive (a `typeof`/`isFinite` failure and
a non-positive value throw the same message), and are then handed on as
plain numbers. -/
def checkAdjustments (adjustments : Adjustments) : Except String (ℚ × ℚ × ℚ) :=
  match adjustments.paceAdjustment, adjustments.dvpFgaFactor, adjustments.dvpFtaFactor with
  | .num (.num paceAdjustment), .num (.num dvpFgaFactor), .num (.num dvpFtaFactor) =>
    if paceAdjustment ≤ 0 || dvpFgaFactor ≤ 0 || dvpFtaFactor ≤ 0 then
      .error "Invalid or missing adjustment factors."
    else .ok (paceAdjustment, dvpFgaFactor, dvpFtaFactor)
  | _, _, _ => .error "Invalid or missing adjustment factors."

/-- The `try` block of `calculateTotalProjectedPoints`
(src/utils/calculations.js:128-225): validation steps 1-3 in source order,
then the result of steps 4-5. -/
def calcCore (playerData : PlayerData) (rawGameParams : RawGameParams)
    (adjustments : Adjustments) : Except String ProjectionResult :=
  match validateAndParseNumber rawGameParams.projectedMinutes "Projected Minutes" with
  | .error e => .error e
  | .ok projectedMinutes =>
    match validateAndParseNumber rawGameParams.usageAdjustment "Usage Adjustment" with
    | .error e => .error e
    | .ok usageAdjustment =>
      if 48 < projectedMinutes then .error "Projected Minutes cannot exceed 48."
      else if 5 < usageAdjustment then .error "Usage Adjustment cannot exceed 5.0."
      else if !(validatePlayerData playerData) then
        .error "Missing or invalid core player statistics required for calculation."
      else
        match checkAdjustments adjustments with
        | .error e => .error e
        | .ok (paceAdjustment, dvpFgaFactor, dvpFtaFactor) =>
          .ok (mkProjectionResult playerData projectedMinutes usageAdjustment
                paceAdjustment dvpFgaFactor dvpFtaFactor)

/-- `calculateTotalProjectedPoints` (src/utils/calculations.js:127-230):
the `try` block, with every thrown error re-thrown under the
`Calculation failed: ` prefix. -/
def calculateTotalProjectedPoints (playerData : PlayerData)
    (rawGameParams : RawGameParams) (adjustments : Adjustments) :
    Except String ProjectionResult :=
  match calcCore playerData rawGameParams adjustments with
  | .ok r => .ok r
  | .error e => .error ("Calculation failed: " ++ e)

/-- Sample player record from the spec's end-to-end scenario:
`FGA_36=18, FTA_36=5, 2P%=0.55, 3P%=0.38, FT%=0.85, 3PAr=0.4`. -/
def pdStd : PlayerData :=
  ⟨.num (jq 18), .num (jq 5), .num (jq (11/20)), .num (jq (19/50)),
   .num (jq (17/20)), .num (jq (2/5))⟩

/-- The sample player with a three-point attempt rate of `1.5`, outside
`[0,1]` but non-negative. -/
def pdRate15 : PlayerData :=
  ⟨.num (jq 18), .num (jq 5), .num (jq (11/20)), .num (jq (19/50)),
   .num (jq (17/20)), .num (jq (3/2))⟩

/-- The sample player with `FGA_36 = Infinity`. -/
def pdInf : PlayerData :=
  ⟨.num .inf, .num (jq 5), .num (jq (11/20)), .num (jq (19/50)),
   .num (jq (17/20)), .num (jq (2/5))⟩

/-- The sample player with the `FGA_36` field missing (`undefined`). -/
def pdMissing : PlayerData :=
  ⟨.nonNum, .num (jq 5), .num (jq (11/20)), .num (jq (19/50)),
   .num (jq (17/20)), .num (jq (2/5))⟩

/-- Standard raw game parameters: 32 projected minutes, usage 1.0. -/
def rawStd : RawGameParams := ⟨"32", "1.0"⟩

/-- Neutral adjustment factors. -/
def adjStd : Adjustments := ⟨.num (jq 1), .num (jq 1), .num (jq 1)⟩

/-- Adjustment factors with a non-positive pace adjustment. -/
def adjBad : Adjustments := ⟨.num (jq (-2)), .num (jq 1), .num (jq 1)⟩

/-- Did the run succeed?  (`calculateTotalProjectedPoints` produces a result
object exactly when this is `true`; on a thrown error no result object
exists.) -/
def exceptOk {a : Type} (e : Except String a) : Bool :=
  match e with
  | .ok _ => true
  | .error _ => false

/-- The message of a failed run (empty string on success); used to state
facts about concrete error values decidably. -/
def exceptMsg {a : Type} (e : Except String a) : String :=
  match e with
  | .error m => m
  | .ok _ => ""

/-- Extract the payload of a successful run, with a fallback record. -/
def getOk (e : Except String ProjectionResult) (d : ProjectionResult) : ProjectionResult :=
  match e with
  | .ok r => r
  | .error _ => d

/-- All-zero fallback record for `getOk`. -/
def zeroResult : ProjectionResult :=
  ⟨jq 0, ⟨jq 0, jq 0, jq 0, jq 0, jq 0, jq 0⟩, ⟨jq 0, jq 0, jq 0⟩⟩

/-- The claim's notion of a valid `projectedMinutes` string: it parses (by
`parseFloat`) to a finite number in `(0, 48]`. -/
def validMinutesStr (s : String) : Bool :=
  match jsParseFloat s with
  | .num q => decide (0 < q) && decide (q ≤ 48)
  | _ => false

/-- The claim's notion of a valid `usageAdjustment` string: it parses (by
`parseFloat`) to a finite number in `(0, 5]`. -/
def validUsageStr (s : String) : Bool :=
  match jsParseFloat s with
  | .num q => decide (0 < q) && decide (q ≤ 5)
  | _ => false

/-- The claim's notion of valid adjustment factors: all three are finite
numbers strictly greater than zero. -/
def adjFactorsValid (adjustments : Adjustments) : Bool :=
  match adjustments.paceAdjustment, adjustments.dvpFgaFactor, adjustments.dvpFtaFactor with
  | .num (.num p), .num (.num a), .num (.num b) =>
      decide (0 < p) && decide (0 < a) && decide (0 < b)
  | _, _, _ => false

/-- The claim's notion of valid inputs to `calculateTotalProjectedPoints`:
both game-parameter strings in bounds, valid player statistics, valid
adjustment factors. -/
def validCalcInputs (pd : PlayerData) (raw : RawGameParams) (adj : Adjustments) : Bool :=
  validMinutesStr raw.projectedMinutes && validUsageStr raw.usageAdjustment
    && validatePlayerData pd && adjFactorsValid adj

/-- The pre-rounding total of step 4 of `calculateTotalProjectedPoints`
(src/utils/calculations.js:173-206), as a function of the validated player
record and the parsed numeric inputs; used to state claims about the
unrounded total. -/
def unroundedTotalPoints (pd : PlayerData) (m u pace dfga dfta : ℚ) : JSNum :=
  let projectedFGA := calculateProjectedFGA pd.FGA_36.toNum (jq m) (jq u) (jq dfga) (jq pace)
  let projectedFTA := calculateProjectedFTA pd.FTA_36.toNum (jq m) (jq u) (jq dfta) (jq pace)
  calculateTwoPointPoints projectedFGA pd.three_point_attempt_rate.toNum pd.two_point_percentage.toNum
    + calculateThreePointPoints projectedFGA pd.three_point_attempt_rate.toNum pd.three_point_percentage.toNum
    + calculateFreeThrowPoints projectedFTA pd.free_throw_percentage.toNum

/-- A player record whose six statistics are the given finite numbers. -/
def finitePD (fga36 fta36 p2 p3 pf r : ℚ) : PlayerData :=
  ⟨.num (jq fga36), .num (jq fta36), .num (jq p2), .num (jq p3), .num (jq pf), .num (jq r)⟩

/-- Valid player record with positive per-36 rates but all shooting
percentages (and the three-point attempt rate) zero. -/
def pdZeroPct : PlayerData := finitePD 1 1 0 0 0 0

/-! ## Helper lemmas -/

lemma jq_mul (a b : ℚ) : jq a * jq b = jq (a * b) := rfl

lemma jq_add (a b : ℚ) : jq a + jq b = jq (a + b) := rfl

lemma jq_sub (a b : ℚ) : jq a - jq b = jq (a - b) := by
  show JSNum.num (a + -b) = JSNum.num (a - b)
  rw [← sub_eq_add_neg]

lemma jq_div36 (a : ℚ) : jq a / jq 36 = jq (a / 36) := by
  show JSNum.div (jq a) (jq 36) = jq (a / 36)
  simp [JSNum.div, jq]

lemma mul_jq_one (r : JSNum) : r * jq 1 = r := by
  cases r with
  | num q => show JSNum.num (q * 1) = JSNum.num q; rw [mul_one]
  | nan => rfl
  | inf =>
      show (if (1 : ℚ) = 0 then JSNum.nan else if (0 : ℚ) < 1 then JSNum.inf else JSNum.negInf) = JSNum.inf
      norm_num
  | negInf =>
      show (if (1 : ℚ) = 0 then JSNum.nan else if (0 : ℚ) < 1 then JSNum.negInf else JSNum.inf) = JSNum.negInf
      norm_num

lemma jsLt_jq (x y : ℚ) : jsLt (jq x) (jq y) = decide (x < y) := rfl

lemma projectedFGA_jq (f m u a p : ℚ) :
    calculateProjectedFGA (jq f) (jq m) (jq u) (jq a) (jq p) = jq (f * (m / 36) * u * a * p) := by
  unfold calculateProjectedFGA
  rw [jq_div36, jq_mul, jq_mul, jq_mul, jq_mul]

lemma projectedFTA_jq (f m u b p : ℚ) :
    calculateProjectedFTA (jq f) (jq m) (jq u) (jq b) (jq p) = jq (f * (m / 36) * u * b * p) := by
  unfold calculateProjectedFTA
  rw [jq_div36, jq_mul, jq_mul, jq_mul, jq_mul]

lemma unroundedTotalPoints_jq (f g p2 p3 pf r m u pace a b : ℚ) :
    unroundedTotalPoints (finitePD f g p2 p3 pf r) m u pace a b
      = jq ((f * (m / 36) * u * a * pace * (1 - r)) * p2 * 2
          + (f * (m / 36) * u * a * pace * r) * p3 * 3
          + (g * (m / 36) * u * b * pace) * pf) := by
  simp only [unroundedTotalPoints, finitePD, calculateTwoPointPoints, calculateThreePointPoints,
    calculateFreeThrowPoints, JSVal.toNum, projectedFGA_jq, projectedFTA_jq,
    jq_sub, jq_mul, jq_add]

lemma calcTotal_ok (pd : PlayerData) (raw : RawGameParams) (adj : Adjustments) :
    exceptOk (calculateTotalProjectedPoints pd raw adj) = exceptOk (calcCore pd raw adj) := by
  unfold calculateTotalProjectedPoints
  cases calcCore pd raw adj <;> rfl

lemma vapn_cases (s f : String) :
    (∃ q : ℚ, jsParseFloat s = .num q ∧ 0 < q ∧ validateAndParseNumber s f = .ok q)
    ∨ (exceptOk (validateAndParseNumber s f) = false
        ∧ ∀ q : ℚ, jsParseFloat s = .num q → q ≤ 0) := by
  unfold validateAndParseNumber
  cases h : jsParseFloat s with
  | nan => right; exact ⟨rfl, by simp⟩
  | inf => right; exact ⟨rfl, by simp⟩
  | negInf => right; exact ⟨rfl, by simp⟩
  | num p =>
    by_cases hp : p ≤ 0
    · right
      refine ⟨by simp [hp, exceptOk], ?_⟩
      intro q hq
      cases hq
      exact hp
    · left
      have hp' : 0 < p := lt_of_not_le hp
      refine ⟨p, rfl, hp', ?_⟩
      simp [hp, not_lt_of_lt hp']

lemma checkAdjustments_ok (adj : Adjustments) :
    exceptOk (checkAdjustments adj) = adjFactorsValid adj := by
  unfold checkAdjustments adjFactorsValid
  rcases adj with ⟨pa, fa, ta⟩
  rcases pa with x | _ <;> try rfl
  rcases x with q | _ | _ | _ <;> try rfl
  rcases fa with y | _ <;> try rfl
  rcases y with q2 | _ | _ | _ <;> try rfl
  rcases ta with z | _ <;> try rfl
  rcases z with q3 | _ | _ | _ <;> try rfl
  by_cases h1 : q ≤ 0 <;> by_cases h2 : q2 ≤ 0 <;> by_cases h3 : q3 ≤ 0 <;>
    simp [h1, h2, h3, exceptOk, not_le, lt_of_not_le, not_lt_of_lt, le_of_lt]

lemma vapn_error_shape (s f : String) (h : exceptOk (validateAndParseNumber s f) = false) :
    ∃ e, validateAndParseNumber s f = .error e := by
  cases hv : validateAndParseNumber s f with
  | ok v => rw [hv] at h; simp [exceptOk] at h
  | error e => exact ⟨e, rfl⟩

lemma calc_ok_iff (pd : PlayerData) (raw : RawGameParams) (adj : Adjustments) :
    exceptOk (calculateTotalProjectedPoints pd raw adj) = validCalcInputs pd raw adj := by
  rw [calcTotal_ok]
  unfold calcCore validCalcInputs
  rcases vapn_cases raw.projectedMinutes "Projected Minutes" with ⟨mv, hmp, hmpos, hmok⟩ | ⟨hmbad, hmneg⟩
  · have hms : validMinutesStr raw.projectedMinutes = decide (mv ≤ 48) := by
      unfold validMinutesStr
      rw [hmp]
      simp [hmpos]
    rw [hms, hmok]
    rcases vapn_cases raw.usageAdjustment "Usage Adjustment" with ⟨uv, hup, hupos, huok⟩ | ⟨hubad, huneg⟩
    · have hus : validUsageStr raw.usageAdjustment = decide (uv ≤ 5) := by
        unfold validUsageStr
        rw [hup]
        simp [hupos]
      rw [hus, huok]
      simp only []
      by_cases h48 : 48 < mv
      · rw [if_pos h48]
        simp [exceptOk, not_le.mpr h48]
      · rw [if_neg h48]
        by_cases h5 : 5 < uv
        · rw [if_pos h5]
          simp [exceptOk, not_le.mpr h5]
        · rw [if_neg h5]
          by_cases hpd : validatePlayerData pd = true
          · rw [if_neg (by simp [hpd])]
            have hadj := checkAdjustments_ok adj
            cases hca : checkAdjustments adj with
            | error e =>
                have hval : adjFactorsValid adj = false := by rw [← hadj, hca]; rfl
                simp [exceptOk, hval, not_lt.mp h48, not_lt.mp h5, hpd]
            | ok t =>
                rcases t with ⟨p, a, b⟩
                have hval : adjFactorsValid adj = true := by rw [← hadj, hca]; rfl
                simp [exceptOk, hval, not_lt.mp h48, not_lt.mp h5, hpd]
          · have hpd' : validatePlayerData pd = false := by
              cases hb : validatePlayerData pd
              · rfl
              · exact absurd hb hpd
            rw [if_pos (by simp [hpd'])]
            simp [exceptOk, hpd']
    · rcases vapn_error_shape _ _ hubad with ⟨e, he⟩
      have hus : validUsageStr raw.usageAdjustment = false := by
        unfold validUsageStr
        cases h : jsParseFloat raw.usageAdjustment with
        | num q =>
            have : ¬ (0 < q) := not_lt.mpr (huneg q h)
            simp [this]
        | nan => rfl
        | inf => rfl
        | negInf => rfl
      rw [hus, he]
      simp [exceptOk]
  · rcases vapn_error_shape _ _ hmbad with ⟨e, he⟩
    have hms : validMinutesStr raw.projectedMinutes = false := by
      unfold validMinutesStr
      cases h : jsParseFloat raw.projectedMinutes with
      | num q =>
          have : ¬ (0 < q) := not_lt.mpr (hmneg q h)
          simp [this]
      | nan => rfl
      | inf => rfl
      | negInf => rfl
    rw [hms, he]
    simp [exceptOk]

lemma charsContain_nil (xs : List Char) : charsContain xs [] = true := by
  cases xs <;> simp [charsContain, charsStartWith]

lemma charsStartWith_append (l t : List Char) : charsStartWith (l ++ t) l = true := by
  induction l with
  | nil => cases t <;> rfl
  | cons a as ih => simp [charsStartWith, ih]

lemma charsContain_of_startWith (xs sub : List Char) (h : charsStartWith xs sub = true) :
    charsContain xs sub = true := by
  cases xs with
  | nil =>
      cases sub with
      | nil => rfl
      | cons b bs => exact absurd h (by simp [charsStartWith])
  | cons a as => simp [charsContain, h]

lemma charsContain_mid (p l q : List Char) : charsContain (p ++ (l ++ q)) l = true := by
  induction p with
  | nil => exact charsContain_of_startWith _ _ (charsStartWith_append l q)
  | cons a as ih => simp [charsContain, ih]

lemma str_data_append (a b : String) : (a ++ b).data = a.data ++ b.data := by
  cases a
  cases b
  rfl

lemma strContains_four (f a v b : String) :
    strContains (f ++ a ++ v ++ b) f = true ∧ strContains (f ++ a ++ v ++ b) v = true := by
  unfold strContains
  simp only [str_data_append, List.append_assoc]
  constructor
  · exact charsContain_of_startWith _ _ (charsStartWith_append f.data _)
  · rw [← List.append_assoc f.data a.data]
    exact charsContain_mid _ _ _

lemma vapn_error_contains (value fieldName m : String) (allowZero : Bool)
    (h : validateAndParseNumber value fieldName allowZero = .error m) :
    strContains m fieldName = true ∧ strContains m value = true := by
  unfold validateAndParseNumber at h
  cases hp : jsParseFloat value with
  | nan =>
      rw [hp] at h
      injection h with h
      subst h
      exact strContains_four _ _ _ _
  | inf =>
      rw [hp] at h
      injection h with h
      subst h
      exact strContains_four _ _ _ _
  | negInf =>
      rw [hp] at h
      injection h with h
      subst h
      exact strContains_four _ _ _ _
  | num p =>
      rw [hp] at h
      dsimp only [] at h
      by_cases h0 : (!allowZero && decide (p ≤ 0)) = true
      · rw [if_pos h0] at h
        injection h with h
        subst h
        exact strContains_four _ _ _ _
      · rw [if_neg h0] at h
        by_cases h1 : p < 0
        · rw [if_pos h1] at h
          injection h with h
          subst h
          exact strContains_four _ _ _ _
        · rw [if_neg h1] at h
          exact absurd h (by simp)

lemma exceptOk_false_shape {a : Type} (x : Except String a) (h : exceptOk x = false) :
    ∃ e, x = .error e := by
  cases x with
  | ok v => simp [exceptOk] at h
  | error e => exact ⟨e, rfl⟩

lemma checkAdjustments_error_shape (adj : Adjustments) (e : String)
    (h : checkAdjustments adj = .error e) : e = "Invalid or missing adjustment factors." := by
  unfold checkAdjustments at h
  split at h
  · split at h
    · injection h with h
      exact h.symm
    · cases h
  · injection h with h
    exact h.symm

lemma linear_mono (c1 c2 m1 m2 : ℚ) (hm1 : 0 < m1) (hm12 : m1 < m2)
    (hkey : c1 * m2 = c2 * m1) (hpos : 0 < c1) : c1 < c2 := by
  have h1 : c1 * m1 < c1 * m2 := (mul_lt_mul_left hpos).mpr hm12
  rw [hkey] at h1
  exact (mul_lt_mul_right hm1).mp h1

/-! ## Claim theorems -/

/-- C1: `calculateProjectedFGA` returns exactly
`fga36 * (projectedMinutes / 36) * usageAdjustment * dvpFactor * paceAdjustment`,
likewise `calculateProjectedFTA`, and at
`projectedMinutes = 36, usageAdjustment = 1, dvpFactor = 1, paceAdjustment = 1`
both return exactly the per-36 rate (for every rate value, finite or not). -/
theorem C1_attempt_scaling :
    (∀ fga36 m u d p : JSNum,
        calculateProjectedFGA fga36 m u d p = fga36 * (m / jq 36) * u * d * p)
    ∧ (∀ fta36 m u d p : JSNum,
        calculateProjectedFTA fta36 m u d p = fta36 * (m / jq 36) * u * d * p)
    ∧ (∀ ratePer36 : JSNum,
        calculateProjectedFGA ratePer36 (jq 36) (jq 1) (jq 1) (jq 1) = ratePer36
        ∧ calculateProjectedFTA ratePer36 (jq 36) (jq 1) (jq 1) (jq 1) = ratePer36) := by
  refine ⟨fun _ _ _ _ _ => rfl, fun _ _ _ _ _ => rfl, ?_⟩
  intro r
  have h36 : jq 36 / jq 36 = jq 1 := by rw [jq_div36]; norm_num
  constructor
  · unfold calculateProjectedFGA
    rw [h36, mul_jq_one, mul_jq_one, mul_jq_one, mul_jq_one]
  · unfold calculateProjectedFTA
    rw [h36, mul_jq_one, mul_jq_one, mul_jq_one, mul_jq_one]

/-- C2: the points decomposition — the two-, three- and free-throw point
components are computed by exactly the claimed formulas, the pre-rounding
total of the result is exactly their sum, and a `threePointAttemptRate`
outside `[0,1]` (here `1.5`) is not clamped: the calculation succeeds and the
negative two-point component propagates into the result. -/
theorem C2_points_decomposition :
    (∀ projectedFGA threePointAttemptRate twoPointPercentage : JSNum,
        calculateTwoPointPoints projectedFGA threePointAttemptRate twoPointPercentage
          = projectedFGA * (jq 1 - threePointAttemptRate) * twoPointPercentage * jq 2)
    ∧ (∀ projectedFGA threePointAttemptRate threePointPercentage : JSNum,
        calculateThreePointPoints projectedFGA threePointAttemptRate threePointPercentage
          = projectedFGA * threePointAttemptRate * threePointPercentage * jq 3)
    ∧ (∀ projectedFTA freeThrowPercentage : JSNum,
        calculateFreeThrowPoints projectedFTA freeThrowPercentage
          = projectedFTA * freeThrowPercentage)
    ∧ (∀ (pd : PlayerData) (m u p a b : ℚ),
        (mkProjectionResult pd m u p a b).projectedPoints
          = jsRound 1 (unroundedTotalPoints pd m u p a b))
    ∧ exceptOk (calculateTotalProjectedPoints pdRate15 rawStd adjStd) = true
    ∧ jsLt (getOk (calculateTotalProjectedPoints pdRate15 rawStd adjStd) zeroResult).breakdown.twoPointers
        (jq 0) = true := by
  refine ⟨fun _ _ _ => rfl, fun _ _ _ => rfl, fun _ _ => rfl, fun _ _ _ _ _ _ => rfl, ?_, ?_⟩
  · with_unfolding_all decide
  · with_unfolding_all decide

/-- C3: `calculateTotalProjectedPoints` fails exactly when an input is
invalid — the minutes string must `parseFloat` into `(0, 48]`, the usage
string into `(0, 5]`, the player statistics and adjustment factors must pass
their checks — and each listed example string is rejected regardless of the
other inputs.  (Rejection yields `Except.error`, so no result object is
produced.) -/
theorem C3_validation_iff :
    (∀ (pd : PlayerData) (raw : RawGameParams) (adj : Adjustments),
        exceptOk (calculateTotalProjectedPoints pd raw adj) = true
          ↔ validCalcInputs pd raw adj = true)
    ∧ (∀ (pd : PlayerData) (adj : Adjustments) (u : String),
        exceptOk (calculateTotalProjectedPoints pd ⟨"0", u⟩ adj) = false
        ∧ exceptOk (calculateTotalProjectedPoints pd ⟨"49", u⟩ adj) = false
        ∧ exceptOk (calculateTotalProjectedPoints pd ⟨"abc", u⟩ adj) = false
        ∧ exceptOk (calculateTotalProjectedPoints pd ⟨"", u⟩ adj) = false
        ∧ exceptOk (calculateTotalProjectedPoints pd ⟨"-5", u⟩ adj) = false)
    ∧ (∀ (pd : PlayerData) (adj : Adjustments) (m : String),
        exceptOk (calculateTotalProjectedPoints pd ⟨m, "0"⟩ adj) = false
        ∧ exceptOk (calculateTotalProjectedPoints pd ⟨m, "5.01"⟩ adj) = false
        ∧ exceptOk (calculateTotalProjectedPoints pd ⟨m, "-1"⟩ adj) = false) := by
  refine ⟨?_, ?_, ?_⟩
  · intro pd raw adj
    rw [calc_ok_iff]
  · intro pd adj u
    refine ⟨?_, ?_, ?_, ?_, ?_⟩ <;> rw [calc_ok_iff] <;> unfold validCalcInputs
    · rw [show validMinutesStr "0" = false from by with_unfolding_all decide]
      simp
    · rw [show validMinutesStr "49" = false from by with_unfolding_all decide]
      simp
    · rw [show validMinutesStr "abc" = false from by with_unfolding_all decide]
      simp
    · rw [show validMinutesStr "" = false from by with_unfolding_all decide]
      simp
    · rw [show validMinutesStr "-5" = false from by with_unfolding_all decide]
      simp
  · intro pd adj m
    refine ⟨?_, ?_, ?_⟩ <;> rw [calc_ok_iff] <;> unfold validCalcInputs
    · rw [show validUsageStr "0" = false from by with_unfolding_all decide]
      simp
    · rw [show validUsageStr "5.01" = false from by with_unfolding_all decide]
      simp
    · rw [show validUsageStr "-1" = false from by with_unfolding_all decide]
      simp

/-- Witness for C3 at the spec's end-to-end scenario inputs. -/
theorem C3_validation_iff_witness :
    exceptOk (calculateTotalProjectedPoints pdStd rawStd adjStd) = true :=
  (C3_validation_iff.1 pdStd rawStd adjStd).mpr (by with_unfolding_all decide)

/-- C5: `calculatePaceAdjustment` returns exactly `1.0` whenever either
argument is not of number type, is `NaN` or infinite, or the league average
pace is `0`; on finite numeric arguments with a non-zero league average it
returns their quotient.  (The function is total, so it never raises.) -/
theorem C5_pace_fallback :
    (∀ opponentPace leagueAvgPace : JSVal,
        jsvIsNumber opponentPace = false ∨ jsIsFinite opponentPace.toNum = false
          ∨ jsvIsNumber leagueAvgPace = false ∨ jsIsFinite leagueAvgPace.toNum = false
          ∨ leagueAvgPace = .num (jq 0) →
        calculatePaceAdjustment opponentPace leagueAvgPace = 1)
    ∧ (∀ x y : ℚ, y ≠ 0 →
        calculatePaceAdjustment (.num (jq x)) (.num (jq y)) = x / y) := by
  constructor
  · intro a b h
    rcases a with ⟨q | _ | _ | _⟩ | _ <;> rcases b with ⟨q2 | _ | _ | _⟩ | _ <;> try rfl
    rcases h with h | h | h | h | h
    · exact absurd h (by simp [jsvIsNumber])
    · exact absurd h (by simp [jsIsFinite, JSVal.toNum])
    · exact absurd h (by simp [jsvIsNumber])
    · exact absurd h (by simp [jsIsFinite, JSVal.toNum])
    · have h0 : q2 = 0 := by
        injection h with h'
        injection h' with h''
      simp [calculatePaceAdjustment, h0]
  · intro x y hy
    simp [calculatePaceAdjustment, jq, hy]

/-- Witness for C5: `NaN` opponent pace falls back to `1.0`; `3 / 2` pace
ratio is returned exactly. -/
theorem C5_pace_fallback_witness :
    calculatePaceAdjustment (.num .nan) (.num (jq 2)) = 1
    ∧ calculatePaceAdjustment (.num (jq 3)) (.num (jq 2)) = 3 / 2 :=
  ⟨C5_pace_fallback.1 (.num .nan) (.num (jq 2)) (Or.inr (Or.inl rfl)),
   C5_pace_fallback.2 3 2 (by norm_num)⟩

/-- C6 counterexample: the claim says every validation failure identifies
the offending field and the received value, but a player-statistics failure
(here `FGA_36` missing) and an adjustment-factor failure (here a pace factor
of `-2`) throw fixed generic messages that name neither the field nor the
value. -/
theorem C6_counterexample :
    exceptMsg (calculateTotalProjectedPoints pdMissing rawStd adjStd)
      = "Calculation failed: Missing or invalid core player statistics required for calculation."
    ∧ exceptOk (calculateTotalProjectedPoints pdMissing rawStd adjStd) = false
    ∧ strContains "Calculation failed: Missing or invalid core player statistics required for calculation."
        "FGA_36" = false
    ∧ exceptMsg (calculateTotalProjectedPoints pdStd rawStd adjBad)
      = "Calculation failed: Invalid or missing adjustment factors."
    ∧ strContains "Calculation failed: Invalid or missing adjustment factors."
        "paceAdjustment" = false
    ∧ strContains "Calculation failed: Invalid or missing adjustment factors." "-2" = false := by
  refine ⟨?_, ?_, ?_, ?_, ?_, ?_⟩ <;> with_unfolding_all decide

/-- C6 amended: failures of the per-field number parsing carry a message
containing the field name and the received value, but player-statistics
failures and adjustment-factor failures carry the fixed messages
`Calculation failed: Missing or invalid core player statistics required for
calculation.` and `Calculation failed: Invalid or missing adjustment
factors.`, which identify neither the offending field nor the received
value. -/
theorem C6_amended :
    (∀ (value fieldName m : String) (allowZero : Bool),
        validateAndParseNumber value fieldName allowZero = .error m →
        strContains m fieldName = true ∧ strContains m value = true)
    ∧ (∀ (pd : PlayerData) (raw : RawGameParams) (adj : Adjustments) (mv uv : ℚ),
        validateAndParseNumber raw.projectedMinutes "Projected Minutes" = .ok mv →
        validateAndParseNumber raw.usageAdjustment "Usage Adjustment" = .ok uv →
        mv ≤ 48 → uv ≤ 5 → validatePlayerData pd = false →
        calculateTotalProjectedPoints pd raw adj
          = .error "Calculation failed: Missing or invalid core player statistics required for calculation.")
    ∧ (∀ (pd : PlayerData) (raw : RawGameParams) (adj : Adjustments) (mv uv : ℚ),
        validateAndParseNumber raw.projectedMinutes "Projected Minutes" = .ok mv →
        validateAndParseNumber raw.usageAdjustment "Usage Adjustment" = .ok uv →
        mv ≤ 48 → uv ≤ 5 → validatePlayerData pd = true → adjFactorsValid adj = false →
        calculateTotalProjectedPoints pd raw adj
          = .error "Calculation failed: Invalid or missing adjustment factors.") := by
  refine ⟨vapn_error_contains, ?_, ?_⟩
  · intro pd raw adj mv uv hm hu h48 h5 hpd
    unfold calculateTotalProjectedPoints calcCore
    rw [hm, hu]
    dsimp only []
    rw [if_neg (not_lt.mpr h48), if_neg (not_lt.mpr h5), if_pos (by simp [hpd])]
    rfl
  · intro pd raw adj mv uv hm hu h48 h5 hpd hadj
    have hoff : exceptOk (checkAdjustments adj) = false := by
      rw [checkAdjustments_ok, hadj]
    rcases exceptOk_false_shape _ hoff with ⟨e, he⟩
    have hmsg := checkAdjustments_error_shape adj e he
    unfold calculateTotalProjectedPoints calcCore
    rw [hm, hu]
    dsimp only []
    rw [if_neg (not_lt.mpr h48), if_neg (not_lt.mpr h5), if_neg (by simp [hpd]), he, hmsg]
    rfl

/-- Witness for C6 amended: the parse failure on `"abc"` identifies the
field `Projected Minutes` and the received value. -/
theorem C6_amended_witness :
    strContains "Projected Minutes is not a valid number. Received: \"abc\"" "Projected Minutes" = true
    ∧ strContains "Projected Minutes is not a valid number. Received: \"abc\"" "abc" = true :=
  C6_amended.1 "abc" "Projected Minutes" _ false (by with_unfolding_all rfl)

/-- C7 counterexample: with valid player data whose per-36 rates are
strictly positive but whose shooting percentages are all zero, increasing
the projected minutes from 12 to 24 (both in `(0, 48]`, all other inputs
fixed and neutral) does not strictly increase the unrounded total points
(it stays `0`); and with the valid record whose `FGA_36` is `Infinity`
(strictly greater than `0` for the JS comparison), the projected field-goal
attempts do not strictly increase either. -/
theorem C7_counterexample :
    validatePlayerData pdZeroPct = true
    ∧ (0 : ℚ) < 12 ∧ (12 : ℚ) < 24 ∧ (24 : ℚ) ≤ 48
    ∧ jsLt (jq 0) pdZeroPct.FGA_36.toNum = true
    ∧ jsLt (jq 0) pdZeroPct.FTA_36.toNum = true
    ∧ jsLt (unroundedTotalPoints pdZeroPct 12 1 1 1 1)
        (unroundedTotalPoints pdZeroPct 24 1 1 1 1) = false
    ∧ validatePlayerData pdInf = true
    ∧ jsLt (jq 0) pdInf.FGA_36.toNum = true
    ∧ jsLt (calculateProjectedFGA pdInf.FGA_36.toNum (jq 12) (jq 1) (jq 1) (jq 1))
        (calculateProjectedFGA pdInf.FGA_36.toNum (jq 24) (jq 1) (jq 1) (jq 1)) = false := by
  refine ⟨?_, ?_, ?_, ?_, ?_, ?_, ?_, ?_, ?_, ?_⟩ <;> with_unfolding_all decide

/-- C7 amended: with finite player statistics and valid positive
adjustments, increasing the projected minutes strictly increases the
projected FGA when `FGA_36 > 0` and the projected FTA when `FTA_36 > 0`;
the unrounded total strictly increases provided it is strictly positive at
the smaller minutes value. -/
theorem C7_amended :
    ∀ fga36 fta36 r p2 p3 pf m1 m2 u dfga dfta pace : ℚ,
      0 < m1 → m1 < m2 → m2 ≤ 48 → 0 < u → 0 < dfga → 0 < dfta → 0 < pace →
      (0 < fga36 →
        jsLt (calculateProjectedFGA (jq fga36) (jq m1) (jq u) (jq dfga) (jq pace))
          (calculateProjectedFGA (jq fga36) (jq m2) (jq u) (jq dfga) (jq pace)) = true)
      ∧ (0 < fta36 →
        jsLt (calculateProjectedFTA (jq fta36) (jq m1) (jq u) (jq dfta) (jq pace))
          (calculateProjectedFTA (jq fta36) (jq m2) (jq u) (jq dfta) (jq pace)) = true)
      ∧ (jsLt (jq 0) (unroundedTotalPoints (finitePD fga36 fta36 p2 p3 pf r) m1 u pace dfga dfta) = true →
        jsLt (unroundedTotalPoints (finitePD fga36 fta36 p2 p3 pf r) m1 u pace dfga dfta)
          (unroundedTotalPoints (finitePD fga36 fta36 p2 p3 pf r) m2 u pace dfga dfta) = true) := by
  intro f g r p2 p3 pf m1 m2 u dfga dfta pace hm1 hm12 hm2 hu ha hb hpace
  refine ⟨?_, ?_, ?_⟩
  · intro hf
    rw [projectedFGA_jq, projectedFGA_jq, jsLt_jq, decide_eq_true_eq]
    have e1 : f * (m1 / 36) * u * dfga * pace = f * u * dfga * pace / 36 * m1 := by ring
    have e2 : f * (m2 / 36) * u * dfga * pace = f * u * dfga * pace / 36 * m2 := by ring
    rw [e1, e2]
    exact mul_lt_mul_of_pos_left hm12 (by positivity)
  · intro hg
    rw [projectedFTA_jq, projectedFTA_jq, jsLt_jq, decide_eq_true_eq]
    have e1 : g * (m1 / 36) * u * dfta * pace = g * u * dfta * pace / 36 * m1 := by ring
    have e2 : g * (m2 / 36) * u * dfta * pace = g * u * dfta * pace / 36 * m2 := by ring
    rw [e1, e2]
    exact mul_lt_mul_of_pos_left hm12 (by positivity)
  · intro hpos
    rw [unroundedTotalPoints_jq, jsLt_jq, decide_eq_true_eq] at hpos
    rw [unroundedTotalPoints_jq, unroundedTotalPoints_jq, jsLt_jq, decide_eq_true_eq]
    exact linear_mono _ _ m1 m2 hm1 hm12 (by ring) hpos

/-- Witness for C7 amended at the sample player's rates and neutral
adjustments. -/
theorem C7_amended_witness :
    jsLt (calculateProjectedFGA (jq 18) (jq 12) (jq 1) (jq 1) (jq 1))
      (calculateProjectedFGA (jq 18) (jq 24) (jq 1) (jq 1) (jq 1)) = true :=
  (C7_amended 18 5 (2/5) (11/20) (19/50) (17/20) 12 24 1 1 1 1 (by norm_num) (by norm_num)
    (by norm_num) (by norm_num) (by norm_num) (by norm_num) (by norm_num)).1 (by norm_num)

/-- C8: `calculateTotalProjectedPoints` is a pure function of exactly its
three arguments (the embedding reads no other state), so two invocations on
equal inputs yield equal outcomes — equal results or the same error. -/
theorem C8_deterministic :
    ∀ (pd1 pd2 : PlayerData) (raw1 raw2 : RawGameParams) (adj1 adj2 : Adjustments),
      pd1 = pd2 → raw1 = raw2 → adj1 = adj2 →
      calculateTotalProjectedPoints pd1 raw1 adj1 = calculateTotalProjectedPoints pd2 raw2 adj2 := by
  intro pd1 pd2 raw1 raw2 adj1 adj2 h1 h2 h3
  rw [h1, h2, h3]

/-- Witness for C8 at the sample inputs. -/
theorem C8_deterministic_witness :
    calculateTotalProjectedPoints pdStd rawStd adjStd
      = calculateTotalProjectedPoints pdStd rawStd adjStd :=
  C8_deterministic pdStd pdStd rawStd rawStd adjStd adjStd rfl rfl rfl

/-- C9: `validateAndParseNumber` accepts any string whose leading numeric
prefix parses to an in-bounds number, trailing garbage included: `"32abc"`
parses to `32`, is accepted, and `calculateTotalProjectedPoints` succeeds on
it, with the same result as on `"32"`. -/
theorem C9_prefix_parse_accepted :
    (∀ (s fieldName : String) (q : ℚ), jsParseFloat s = .num q → 0 < q →
        validateAndParseNumber s fieldName = .ok q)
    ∧ jsParseFloat "32abc" = jq 32
    ∧ exceptOk (calculateTotalProjectedPoints pdStd ⟨"32abc", "1.0"⟩ adjStd) = true
    ∧ calculateTotalProjectedPoints pdStd ⟨"32abc", "1.0"⟩ adjStd
        = calculateTotalProjectedPoints pdStd rawStd adjStd := by
  refine ⟨?_, ?_, ?_, ?_⟩
  · intro s f q hp hq
    unfold validateAndParseNumber
    rw [hp]
    simp [not_le.mpr hq, not_lt.mpr hq.le]
  · with_unfolding_all decide
  · with_unfolding_all decide
  · with_unfolding_all rfl

/-- Witness for C9: the general acceptance statement at `"32abc"`. -/
theorem C9_prefix_parse_accepted_witness :
    validateAndParseNumber "32abc" "Projected Minutes" = .ok 32 :=
  C9_prefix_parse_accepted.1 "32abc" "Projected Minutes" 32 (by with_unfolding_all decide)
    (by norm_num)

/-- C10: `validatePlayerData` performs no finiteness check: the sample
record with `FGA_36 = Infinity` passes validation, the calculation returns
a result instead of raising, and the projected FGA and total points in that
result are non-finite. -/
theorem C10_infinity_passes :
    validatePlayerData pdInf = true
    ∧ exceptOk (calculateTotalProjectedPoints pdInf rawStd adjStd) = true
    ∧ jsIsFinite (getOk (calculateTotalProjectedPoints pdInf rawStd adjStd) zeroResult).breakdown.projectedFGA
        = false
    ∧ jsIsFinite (getOk (calculateTotalProjectedPoints pdInf rawStd adjStd) zeroResult).projectedPoints
        = false := by
  refine ⟨?_, ?_, ?_, ?_⟩ <;> with_unfolding_all decide
